import Mathlib

/-!
Verification of the health-check pipeline of this repository.

The repository has two source files:
* `app/prompts.py` — a pure prompt builder (`SYSTEM_MESSAGE`, `get_user_prompt`);
* `hello.py` — the `health_check` command: client initialization, sample-data
  generation, CSV reading, Markdown conversion, and the remote chat call.

The pure prompt builder is embedded directly.  The `health_check` command is
embedded as a function from an environment (whether the client initialized,
whether the prompts module loaded, the random source, the CSV-read outcome and
the remote-call outcome) to the list of observable effects it performs together
with its final outcome.  External library behaviour (numpy's random generator,
pandas' renderers and CSV reader, the OpenAI client) is not part of the
repository; those parts are modelled from the specification and are marked
`Modelled from the spec:` in their doc comments.
-/

set_option maxRecDepth 40000

namespace HealthCheckSpec

/-- Substring occurrence: `needle` occurs contiguously inside `haystack`. -/
def occursIn (needle haystack : String) : Prop :=
  needle.data <:+: haystack.data

instance occursInDec (n h : String) : Decidable (occursIn n h) :=
  inferInstanceAs (Decidable (n.data <:+: h.data))

/-- Python's `sep.join(parts)`: the parts concatenated with `sep` between
consecutive parts. -/
def joinSep (sep : String) : List String → String
  | [] => ""
  | [x] => x
  | x :: y :: ys => x ++ sep ++ joinSep sep (y :: ys)

/-- Embedding of `SYSTEM_MESSAGE` from `src/app/prompts.py`. -/
def SYSTEM_MESSAGE : String := "You are a helpful data analyst assistant."

/-- The single-dataset question appended by `get_user_prompt` when no second
table is supplied (`src/app/prompts.py`, lines 33-37; Python's adjacent string
literals concatenated). -/
def singleQuestion : String := "\nPlease provide a brief description of this dataset, mentioning the features and potential target variable. What kind of simple analysis could be performed on this data?"

/-- The comparative question appended by `get_user_prompt` when a second table
is supplied (`src/app/prompts.py`, lines 27-30). -/
def comparativeQuestion : String := "\nPlease provide a brief description of each dataset, mentioning the features and potential target variables. What kind of simple analysis could be performed on each, or potentially by combining them?"

/-- Python truthiness of the optional `csv_markdown` argument: `None` and the
empty string are falsy, every other string is truthy. -/
def pyTruthy : Option String → Bool
  | none => false
  | some s => if s = "" then false else true

/-- Embedding of `get_user_prompt` from `src/app/prompts.py`.  `none` models the
Python default `csv_markdown=None`. -/
def get_user_prompt (generated_markdown : String) (csv_markdown : Option String) : String :=
  let prompt_parts : List String :=
    ["Here are two sample datasets in Markdown format.",
     "\nDataset 1 (Generated):",
     generated_markdown]
  let prompt_parts : List String :=
    if pyTruthy csv_markdown then
      prompt_parts ++ ["\nDataset 2 (From CSV):", csv_markdown.getD "", comparativeQuestion]
    else
      prompt_parts ++ [singleQuestion]
  joinSep "\n\n" prompt_parts

/-- The fixed text every prompt starts with: the introduction sentence, the
"Dataset 1 (Generated):" label, and the "\n\n" joiners around them. -/
def promptHeader : String := "Here are two sample datasets in Markdown format.\n\n\nDataset 1 (Generated):\n\n"

/-- The fixed text between the generated table and the CSV table in a
two-dataset prompt. -/
def midSection : String := "\n\n\nDataset 2 (From CSV):\n\n"

/-- The fixed text after the CSV table in a two-dataset prompt. -/
def tailSection : String := "\n\n\nPlease provide a brief description of each dataset, mentioning the features and potential target variables. What kind of simple analysis could be performed on each, or potentially by combining them?"

/-- The fixed text after the generated table in a single-dataset prompt. -/
def singleTail : String := "\n\n\nPlease provide a brief description of this dataset, mentioning the features and potential target variable. What kind of simple analysis could be performed on this data?"

/-- An in-memory table: named columns and a list of rows (`pd.DataFrame`). -/
structure DataFrame (α : Type) where
  columns : List String
  rows : List (List α)
deriving DecidableEq

/-- Failure of the Markdown conversion. -/
inductive FormatError
  | zeroColumns
deriving DecidableEq

/-- One Markdown table row: cells joined by " | " and enclosed in pipes. -/
def mdRow (cells : List String) : String :=
  "| " ++ joinSep " | " cells ++ " |"

/-- Modelled from the spec: pandas' `DataFrame.to_markdown(index=False)` is
library code outside this repository.  Per the spec it returns the Markdown
rendering of the table — header row, separator row, one row per record, no
row-index column — and fails with `FormatError` when the table has zero
columns, while zero rows yields header-only output. -/
def to_markdown {α : Type} (render : α → String) (df : DataFrame α) : Except FormatError String :=
  if df.columns = [] then .error .zeroColumns
  else .ok (joinSep "\n"
    (mdRow df.columns :: mdRow (df.columns.map fun _ => "---") ::
      df.rows.map fun r => mdRow (r.map render)))

/-- Character standing for a decimal digit. -/
def digitChar (d : Nat) : Char := Char.ofNat (48 + d % 10)

/-- Decimal digit characters of a natural number (fuel-driven). -/
def natChars : Nat → Nat → List Char
  | 0, _ => []
  | fuel + 1, n => if n < 10 then [digitChar n] else natChars fuel (n / 10) ++ [digitChar (n % 10)]

/-- Modelled from the spec: the textual rendering of a numeric cell used by the
external table renderers.  Cells are rationals; the rendering uses only digit
characters, a minus sign and a fraction slash. -/
def renderCell (q : ℚ) : String :=
  (if q < 0 then "-" else "") ++ String.mk (natChars q.num.natAbs q.num.natAbs) ++
    (if q.den = 1 then "" else "/" ++ String.mk (natChars q.den q.den))

/-- Modelled from the spec: `np.random.rand(rows, cols)` is library code
outside this repository.  Per the spec it yields a rows×cols table of
pseudo-random floating values in [0,1); modelled as drawing 53-bit uniform
integers from the random source `seed` and scaling them by 2^-53, which is
exactly the value set of numpy's uniform doubles. -/
def np_random_rand (rows cols : Nat) (seed : Nat → Nat) : List (List ℚ) :=
  (List.range rows).map fun i => (List.range cols).map fun j =>
    ((seed (i * cols + j) % 2 ^ 53 : ℕ) : ℚ) / ((2 ^ 53 : ℕ) : ℚ)

/-- Embedding of `hello.py` lines 64-66: the generated sample DataFrame, a 5×3
random table with the three fixed column names. -/
def generate_sample_table (seed : Nat → Nat) : DataFrame ℚ :=
  { columns := ["Feature_A", "Feature_B", "Target"]
    rows := np_random_rand 5 3 seed }

/-- Modelled from the spec: pandas' `DataFrame.to_string()` plain-text
rendering, used only for progress output (its content is not specified and no
claim depends on it); modelled as space-joined headers and rows. -/
def df_to_string {α : Type} (render : α → String) (df : DataFrame α) : String :=
  joinSep "\n" (joinSep " " df.columns :: df.rows.map fun r => joinSep " " (r.map render))

/-- Embedding of `CSV_FILE_PATH` from `src/hello.py`. -/
def CSV_FILE_PATH : String := "data/sample_data.csv"

/-- The string `"-" * 30` echoed between stages. -/
def dash30 : String := "------------------------------"

/-- Modelled from the spec: the error kinds the remote chat-completion call can
raise.  The call is library code outside this repository; per the spec it
either returns the first reply's text or fails with a `RequestError`, and the
source treats exactly ValueError, TypeError and KeyError as this one
"request failed" class (`hello.py` line 121, spec section 9). -/
inductive ReqErrKind
  | valueError
  | typeError
  | keyError
deriving DecidableEq

/-- Modelled from the spec: the outcome of `pd.read_csv(CSV_FILE_PATH)`, which
is library code outside this repository.  Per the spec it returns a parsed
table, or signals NotFound when the path does not exist (FileNotFoundError), or
a parse error when the content is empty or malformed (EmptyDataError or
ParserError, carrying the message the source interpolates). -/
inductive CsvResult
  | notFound
  | parseError (msg : String)
  | ok (df : DataFrame String)
deriving DecidableEq

/-- Modelled from the spec: the outcome of the remote chat-completion call —
the first choice's message content on success, or a request error. -/
inductive ApiResult
  | ok (content : String)
  | failure (kind : ReqErrKind) (msg : String)
deriving DecidableEq

/-- Observable effects of one `health_check` run: lines echoed to stdout,
lines echoed to stderr, the random generation, the CSV read, and the remote
chat call with its two messages. -/
inductive Effect
  | out (s : String)
  | err (s : String)
  | genData
  | readCsv (path : String)
  | apiCall (systemMsg userMsg : String)
deriving DecidableEq

/-- How one `health_check` run ends: normally, aborted at one of the two
startup guards, or by an exception that no handler in the function catches. -/
inductive Outcome
  | completed
  | abortedClient
  | abortedPrompts
  | raised
deriving DecidableEq

/-- Environment of one run: whether the OpenAI client initialized at startup
(`CLIENT` is not None, `hello.py` lines 25-30), whether the prompts module
imported (lines 16-21), the random source, and the outcomes the external world
gives to the CSV read and the remote call. -/
structure Env where
  clientConfigured : Bool
  promptsLoaded : Bool
  seed : Nat → Nat
  csvFile : CsvResult
  apiResult : ApiResult

/-- Embedding of the CSV stage of `health_check` (`hello.py` lines 71-88): the
effects it performs and, unless an uncaught exception escapes (`none`), the
optional CSV Markdown string it leaves behind. -/
def csvStage : CsvResult → List Effect × Option (Option String)
  | .ok df =>
    match to_markdown id df with
    | .ok md =>
      ([.out "CSV file read successfully:", .out (df_to_string id df), .out dash30,
        .out "Converting CSV DataFrame to Markdown...", .out "CSV Markdown Table:", .out md],
       some (some md))
    | .error _ =>
      ([.out "CSV file read successfully:", .out (df_to_string id df), .out dash30,
        .out "Converting CSV DataFrame to Markdown..."], none)
  | .notFound =>
    ([.err ("Warning: CSV file not found at " ++ CSV_FILE_PATH ++ ".")], some none)
  | .parseError m =>
    ([.err ("Error reading CSV file: " ++ m)], some none)

/-- Embedding of the response handling of `health_check` (`hello.py` lines
108-122): the reply is printed, and a request failure is caught and reported to
stderr. -/
def apiStage : ApiResult → List Effect
  | .ok content => [.out "OpenAI API Response:", .out content]
  | .failure _ m => [.err ("Error calling OpenAI API: " ++ m)]

/-- Embedding of `health_check` from `src/hello.py`: the effects performed, in
source order, and the outcome of the run. -/
def health_check (env : Env) : List Effect × Outcome :=
  if env.clientConfigured = false then
    ([.err "OpenAI client not initialized. Cannot proceed."], .abortedClient)
  else if env.promptsLoaded = false then
    ([.err "Prompts module not loaded. Cannot proceed."], .abortedPrompts)
  else
    let gdf := generate_sample_table env.seed
    let pre1 : List Effect :=
      [.out "Performing data science health check...",
       .out "Generating sample DataFrame...", .genData,
       .out "Sample DataFrame created:", .out (df_to_string renderCell gdf), .out dash30,
       .out ("Attempting to read CSV file: " ++ CSV_FILE_PATH ++ "..."), .readCsv CSV_FILE_PATH]
    match csvStage env.csvFile with
    | (ceff, none) => (pre1 ++ ceff, .raised)
    | (ceff, some csvMd) =>
      let pre2 := pre1 ++ ceff ++ [.out dash30, .out "Converting generated DataFrame to Markdown..."]
      match to_markdown renderCell gdf with
      | .error _ => (pre2, .raised)
      | .ok gmd =>
        let prompt := get_user_prompt gmd csvMd
        (pre2 ++
          [.out "Generated Markdown Table:", .out gmd, .out dash30,
           .out "Sending data to OpenAI API for analysis...",
           .apiCall SYSTEM_MESSAGE prompt] ++
          apiStage env.apiResult ++
          [.out dash30, .out "Health check complete."], .completed)

/-- The Markdown string of the generated table: the payload of its successful
conversion. -/
def genMarkdown (seed : Nat → Nat) : String :=
  joinSep "\n"
    (mdRow ["Feature_A", "Feature_B", "Target"] ::
     mdRow (["Feature_A", "Feature_B", "Target"].map fun _ => "---") ::
     (np_random_rand 5 3 seed).map fun r => mdRow (r.map renderCell))

/-- The all-zeros random source, used for concrete witnesses. -/
def zeroSeed : Nat → Nat := fun _ => 0

/-- The first generated row under the all-zeros random source. -/
def zeroRow : List ℚ :=
  (List.range 3).map fun j => ((zeroSeed (0 * 3 + j) % 2 ^ 53 : ℕ) : ℚ) / ((2 ^ 53 : ℕ) : ℚ)

/-- The first generated cell under the all-zeros random source. -/
def zeroCell : ℚ := ((zeroSeed (0 * 3 + 0) % 2 ^ 53 : ℕ) : ℚ) / ((2 ^ 53 : ℕ) : ℚ)

/-- A zero-column table. -/
def emptyDf : DataFrame ℚ := ⟨[], []⟩

/-- A one-column, zero-row table. -/
def oneColDf : DataFrame ℚ := ⟨["A"], []⟩

/-- The two-column, one-row table of claim C7. -/
def c7Df : DataFrame ℚ := ⟨["A", "B"], [[1, 2]]⟩

/-- Environment with an unconfigured client. -/
def envNoClient : Env := ⟨false, true, zeroSeed, .notFound, .ok "fine"⟩

/-- Environment whose CSV file is missing. -/
def envCsvMissing : Env := ⟨true, true, zeroSeed, .notFound, .ok "resp"⟩

/-- Environment whose remote call fails with a simulated request error. -/
def envApiFail : Env := ⟨true, true, zeroSeed, .notFound, .failure .valueError "boom"⟩

/-! ## Theorems -/

theorem data_append (s t : String) : (s ++ t).data = s.data ++ t.data := by
  cases s; cases t; rfl

/-- C9: passing the empty string as `csv_markdown` selects the same branch as
passing `None`, so the two prompts coincide. -/
theorem c9_empty_csv_same_as_none (g : String) :
    get_user_prompt g (some "") = get_user_prompt g none := rfl

/-- C8: the prompt builder is deterministic — equal arguments give equal
prompts.  (Its embedding `get_user_prompt` is a pure function of its two
arguments: the source body is only list and string construction, with no
effectful call.) -/
theorem c8_prompt_builder_deterministic (g₁ g₂ : String) (c₁ c₂ : Option String)
    (hg : g₁ = g₂) (hc : c₁ = c₂) :
    get_user_prompt g₁ c₁ = get_user_prompt g₂ c₂ := by
  rw [hg, hc]

theorem c8_witness :
    get_user_prompt "| A |" (some "| B |") = get_user_prompt "| A |" (some "| B |") :=
  c8_prompt_builder_deterministic "| A |" "| A |" (some "| B |") (some "| B |") rfl rfl

/-- C10: every prompt starts with the fixed introduction, the "Dataset 1
(Generated):" label and the generated markdown, whatever the second argument
is. -/
theorem c10_prompt_always_two_dataset_header (g : String) (c : Option String) :
    ∃ rest, get_user_prompt g c = promptHeader ++ g ++ rest := by
  have hsplit : ∀ rest : String,
      promptHeader ++ g ++ rest =
        "Here are two sample datasets in Markdown format." ++ "\n\n" ++
          "\nDataset 1 (Generated):" ++ "\n\n" ++ g ++ rest := by
    intro rest
    apply String.ext
    simp only [data_append, List.append_assoc]
    rfl
  cases c with
  | none =>
    refine ⟨"\n\n" ++ singleQuestion, ?_⟩
    rw [hsplit]
    apply String.ext
    simp [get_user_prompt, pyTruthy, joinSep, data_append, List.append_assoc]
  | some s =>
    by_cases hs : s = ""
    · refine ⟨"\n\n" ++ singleQuestion, ?_⟩
      rw [hsplit]
      apply String.ext
      simp [get_user_prompt, pyTruthy, hs, joinSep, data_append, List.append_assoc]
    · refine ⟨"\n\n" ++ "\nDataset 2 (From CSV):" ++ "\n\n" ++ s ++ "\n\n" ++
        comparativeQuestion, ?_⟩
      rw [hsplit]
      apply String.ext
      simp [get_user_prompt, pyTruthy, hs, joinSep, data_append, List.append_assoc]

/-- C4: the generated sample table has exactly 5 rows, exactly the columns
Feature_A, Feature_B, Target, and every cell lies in [0,1), for every random
source. -/
theorem c4_generated_table_shape_and_range (seed : Nat → Nat) :
    (generate_sample_table seed).columns = ["Feature_A", "Feature_B", "Target"] ∧
    (generate_sample_table seed).rows.length = 5 ∧
    (∀ r ∈ (generate_sample_table seed).rows, r.length = 3) ∧
    (∀ r ∈ (generate_sample_table seed).rows, ∀ x ∈ r, 0 ≤ x ∧ x < 1) := by
  refine ⟨rfl, by simp [generate_sample_table, np_random_rand], ?_, ?_⟩
  · intro r hr
    simp only [generate_sample_table, np_random_rand, List.mem_map, List.mem_range] at hr
    obtain ⟨i, hi, rfl⟩ := hr
    simp
  · intro r hr x hx
    simp only [generate_sample_table, np_random_rand, List.mem_map, List.mem_range] at hr
    obtain ⟨i, hi, rfl⟩ := hr
    simp only [List.mem_map, List.mem_range] at hx
    obtain ⟨j, hj, rfl⟩ := hx
    constructor
    · positivity
    · rw [div_lt_one (by positivity)]
      exact_mod_cast Nat.mod_lt _ (by norm_num)

theorem c4_witness :
    (generate_sample_table zeroSeed).columns = ["Feature_A", "Feature_B", "Target"] ∧
    (generate_sample_table zeroSeed).rows.length = 5 ∧
    zeroRow.length = 3 ∧ 0 ≤ zeroCell ∧ zeroCell < 1 :=
  have hr : zeroRow ∈ (generate_sample_table zeroSeed).rows :=
    List.mem_map.mpr ⟨0, by simp, rfl⟩
  have hx : zeroCell ∈ zeroRow := List.mem_map.mpr ⟨0, by simp, rfl⟩
  ⟨(c4_generated_table_shape_and_range zeroSeed).1,
   (c4_generated_table_shape_and_range zeroSeed).2.1,
   (c4_generated_table_shape_and_range zeroSeed).2.2.1 zeroRow hr,
   ((c4_generated_table_shape_and_range zeroSeed).2.2.2 zeroRow hr zeroCell hx).1,
   ((c4_generated_table_shape_and_range zeroSeed).2.2.2 zeroRow hr zeroCell hx).2⟩

/-- C6: Markdown conversion fails with the zero-columns error exactly when the
table has no columns, and on a table with columns but no rows it succeeds with
header-only output (header row and separator row). -/
theorem c6_markdown_zero_columns {α : Type} (render : α → String) (df : DataFrame α) :
    (df.columns = [] → to_markdown render df = .error .zeroColumns) ∧
    (df.columns ≠ [] → df.rows = [] →
      to_markdown render df =
        .ok (mdRow df.columns ++ "\n" ++ mdRow (df.columns.map fun _ => "---"))) := by
  constructor
  · intro h
    simp [to_markdown, h]
  · intro h hrows
    simp [to_markdown, h, hrows, joinSep]

theorem c6_witness :
    to_markdown renderCell emptyDf = .error .zeroColumns ∧
    to_markdown renderCell oneColDf = .ok "| A |\n| --- |" :=
  ⟨(c6_markdown_zero_columns renderCell emptyDf).1 rfl,
   (c6_markdown_zero_columns renderCell oneColDf).2 (by decide) rfl⟩

/-- C7: converting the table with columns A, B and single row (1, 2) yields a
header row containing A and B, a separator row, and exactly one data row
containing 1 and 2, with no row-index column. -/
theorem c7_markdown_single_row :
    to_markdown renderCell c7Df = .ok "| A | B |\n| --- | --- |\n| 1 | 2 |" ∧
    "| A | B |\n| --- | --- |\n| 1 | 2 |".data.count '\n' = 2 ∧
    occursIn "A" "| A | B |" ∧ occursIn "B" "| A | B |" ∧
    occursIn "1" "| 1 | 2 |" ∧ occursIn "2" "| 1 | 2 |" := by
  refine ⟨?_, by decide, by decide, by decide, by decide, by decide⟩
  rfl

/-- C2: with an unconfigured client, `health_check` emits exactly the
configuration diagnostic on stderr and aborts; in particular no data
generation, no CSV read and no remote call happen. -/
theorem c2_no_client_aborts (env : Env) (h : env.clientConfigured = false) :
    health_check env =
      ([.err "OpenAI client not initialized. Cannot proceed."], .abortedClient) ∧
    ∀ e ∈ (health_check env).1,
      e ≠ .genData ∧ (∀ p, e ≠ .readCsv p) ∧ ∀ s u, e ≠ .apiCall s u := by
  have h1 : health_check env =
      ([.err "OpenAI client not initialized. Cannot proceed."], .abortedClient) := by
    simp [health_check, h]
  refine ⟨h1, ?_⟩
  rw [h1]
  intro e he
  simp only [List.mem_singleton] at he
  subst he
  exact ⟨by simp, fun p => by simp, fun s u => by simp⟩

theorem c2_witness :
    health_check envNoClient =
      ([.err "OpenAI client not initialized. Cannot proceed."], .abortedClient) :=
  (c2_no_client_aborts envNoClient rfl).1

/-- A newline-free needle occurring in `X ++ Y`, where `Y` starts with a
newline, occurs wholly inside `X` or wholly inside `Y`. -/
theorem infix_append_or_right {T X Y : List Char} (hT : '\n' ∉ T)
    (hY : ∃ Z, Y = '\n' :: Z) (h : T <:+: X ++ Y) : T <:+: X ∨ T <:+: Y := by
  obtain ⟨p, q, hpq⟩ := h
  rw [List.append_assoc] at hpq
  rcases List.append_eq_append_iff.mp hpq with ⟨a, hXa, hTq⟩ | ⟨a, hpa, hYa⟩
  · rcases List.append_eq_append_iff.mp hTq with ⟨b, hab, hqb⟩ | ⟨w, hTw, hYw⟩
    · left
      exact ⟨p, b, by rw [hXa, hab, List.append_assoc]⟩
    · cases w with
      | nil =>
        left
        refine ⟨p, [], ?_⟩
        simp only [List.append_nil] at hTw ⊢
        rw [hXa, hTw]
      | cons y ys =>
        obtain ⟨Z, hZ⟩ := hY
        rw [hZ, List.cons_append] at hYw
        have hy : y = '\n' := by
          have h0 := hYw
          injection h0 with h1 h2
          exact h1.symm
        exfalso
        apply hT
        rw [hTw]
        refine List.mem_append_right a ?_
        rw [hy]
        exact List.mem_cons_self _ _
  · right
    exact ⟨a, q, by rw [hYa, List.append_assoc]⟩

/-- A newline-free needle occurring in `X ++ Y`, where `X` ends with a
newline, occurs wholly inside `X` or wholly inside `Y`. -/
theorem infix_append_or_left {T X Y : List Char} (hT : '\n' ∉ T)
    (hX : ∃ Z, X = Z ++ ['\n']) (h : T <:+: X ++ Y) : T <:+: X ∨ T <:+: Y := by
  obtain ⟨p, q, hpq⟩ := h
  rw [List.append_assoc] at hpq
  rcases List.append_eq_append_iff.mp hpq with ⟨a, hXa, hTq⟩ | ⟨a, hpa, hYa⟩
  · rcases List.append_eq_append_iff.mp hTq with ⟨b, hab, hqb⟩ | ⟨w, hTw, hYw⟩
    · left
      exact ⟨p, b, by rw [hXa, hab, List.append_assoc]⟩
    · cases a with
      | nil =>
        right
        refine ⟨[], q, ?_⟩
        simp only [List.nil_append] at hTw ⊢
        rw [hYw, ← hTw]
      | cons z zs =>
        obtain ⟨Z, hZ⟩ := hX
        rcases List.eq_nil_or_concat (z :: zs) with hnil | ⟨m, lastc, hconc⟩
        · exact absurd hnil (by simp)
        · rw [List.concat_eq_append] at hconc
          have hXeq : Z ++ ['\n'] = (p ++ m) ++ [lastc] := by
            rw [← hZ, hXa, hconc, List.append_assoc]
          have hlast : lastc = '\n' := by
            have hrev := congrArg List.reverse hXeq
            simp only [List.reverse_append, List.reverse_cons, List.reverse_nil,
              List.nil_append, List.cons_append, List.singleton_append] at hrev
            injection hrev with h1 h2
            exact h1.symm
          exfalso
          apply hT
          rw [hTw]
          refine List.mem_append_left w ?_
          rw [hconc, hlast]
          exact List.mem_append_right m (List.mem_cons_self _ _)
  · right
    exact ⟨a, q, by rw [hYa, List.append_assoc]⟩

theorem prompt_none_eq (g : String) :
    get_user_prompt g none = promptHeader ++ g ++ singleTail := by
  have h1 : promptHeader.data =
      "Here are two sample datasets in Markdown format.".data ++
        ("\n\n".data ++ ("\nDataset 1 (Generated):".data ++ "\n\n".data)) := by decide
  have h2 : singleTail.data = "\n\n".data ++ singleQuestion.data := by decide
  apply String.ext
  simp [get_user_prompt, pyTruthy, joinSep, data_append, h1, h2, List.append_assoc]

theorem prompt_some_eq (g c : String) (hc : c ≠ "") :
    get_user_prompt g (some c) = promptHeader ++ g ++ midSection ++ c ++ tailSection := by
  have h1 : promptHeader.data =
      "Here are two sample datasets in Markdown format.".data ++
        ("\n\n".data ++ ("\nDataset 1 (Generated):".data ++ "\n\n".data)) := by decide
  have h3 : midSection.data =
      "\n\n".data ++ ("\nDataset 2 (From CSV):".data ++ "\n\n".data) := by decide
  have h4 : tailSection.data = "\n\n".data ++ comparativeQuestion.data := by decide
  apply String.ext
  simp [get_user_prompt, pyTruthy, hc, joinSep, data_append, h1, h3, h4, List.append_assoc]

/-- C3 (amended): the single-dataset prompt contains the single-dataset
question and the generated string; the two-dataset prompt contains both table
strings and the comparative question; and the single-dataset question is
absent from the two-dataset prompt provided the phrase "this dataset" occurs
in neither table string (without that proviso a table string that itself
carries the question text makes it present). -/
theorem c3_amended_prompt_contents (g c : String) (hc : c ≠ "")
    (hTg : ¬ occursIn "this dataset" g) (hTc : ¬ occursIn "this dataset" c) :
    occursIn singleQuestion (get_user_prompt g none) ∧
    occursIn g (get_user_prompt g none) ∧
    occursIn g (get_user_prompt g (some c)) ∧
    occursIn c (get_user_prompt g (some c)) ∧
    occursIn comparativeQuestion (get_user_prompt g (some c)) ∧
    ¬ occursIn singleQuestion (get_user_prompt g (some c)) := by
  have hst : singleTail.data = "\n\n".data ++ singleQuestion.data := by decide
  have htl : tailSection.data = "\n\n".data ++ comparativeQuestion.data := by decide
  refine ⟨?_, ?_, ?_, ?_, ?_, ?_⟩
  · show singleQuestion.data <:+: _
    rw [prompt_none_eq g, data_append, data_append, hst]
    exact ⟨promptHeader.data ++ g.data ++ "\n\n".data, [],
      by simp [List.append_assoc]⟩
  · show g.data <:+: _
    rw [prompt_none_eq g, data_append, data_append]
    exact ⟨promptHeader.data, singleTail.data, rfl⟩
  · show g.data <:+: _
    rw [prompt_some_eq g c hc]
    simp only [data_append, List.append_assoc]
    exact ⟨promptHeader.data,
      midSection.data ++ (c.data ++ tailSection.data), by simp [List.append_assoc]⟩
  · show c.data <:+: _
    rw [prompt_some_eq g c hc]
    simp only [data_append, List.append_assoc]
    exact ⟨promptHeader.data ++ (g.data ++ midSection.data), tailSection.data,
      by simp [List.append_assoc]⟩
  · show comparativeQuestion.data <:+: _
    rw [prompt_some_eq g c hc]
    simp only [data_append, htl, List.append_assoc]
    exact ⟨promptHeader.data ++ (g.data ++ (midSection.data ++ (c.data ++ "\n\n".data))),
      [], by simp [List.append_assoc]⟩
  · intro hS
    have hT2 : "this dataset".data <:+: (get_user_prompt g (some c)).data :=
      (show "this dataset".data <:+: singleQuestion.data by decide).trans hS
    rw [prompt_some_eq g c hc] at hT2
    simp only [data_append, List.append_assoc] at hT2
    have hnl : '\n' ∉ "this dataset".data := by decide
    rcases infix_append_or_left hnl
      ⟨"Here are two sample datasets in Markdown format.\n\n\nDataset 1 (Generated):\n".data,
        by decide⟩ hT2 with h1 | h1
    · exact absurd h1 (by decide)
    have hmid : midSection.data = '\n' :: "\n\nDataset 2 (From CSV):\n\n".data := by decide
    rcases infix_append_or_right hnl
      ⟨"\n\nDataset 2 (From CSV):\n\n".data ++ (c.data ++ tailSection.data),
        by rw [hmid]; rfl⟩ h1 with h2 | h2
    · exact hTg h2
    rcases infix_append_or_left hnl
      ⟨"\n\n\nDataset 2 (From CSV):\n".data, by decide⟩ h2 with h3 | h3
    · exact absurd h3 (by decide)
    rcases infix_append_or_right hnl
      ⟨"\n\nPlease provide a brief description of each dataset, mentioning the features and potential target variables. What kind of simple analysis could be performed on each, or potentially by combining them?".data,
        by decide⟩ h3 with h4 | h4
    · exact hTc h4
    · exact absurd h4 (by decide)

/-- C3 counterexample: the claim quantifies over all non-empty table strings,
but a generated string that itself contains the single-dataset question text
makes that text present in the two-dataset prompt. -/
theorem c3_counterexample :
    singleQuestion ≠ "" ∧ ("x" : String) ≠ "" ∧
    occursIn singleQuestion (get_user_prompt singleQuestion (some "x")) := by
  refine ⟨by decide, by decide, ?_⟩
  show singleQuestion.data <:+: _
  rw [prompt_some_eq singleQuestion "x" (by decide)]
  simp only [data_append, List.append_assoc]
  exact ⟨promptHeader.data, midSection.data ++ ("x".data ++ tailSection.data),
    by simp [List.append_assoc]⟩

theorem c3_witness :
    occursIn singleQuestion (get_user_prompt "| A |" none) ∧
    occursIn "| A |" (get_user_prompt "| A |" none) ∧
    occursIn "| A |" (get_user_prompt "| A |" (some "| B |")) ∧
    occursIn "| B |" (get_user_prompt "| A |" (some "| B |")) ∧
    occursIn comparativeQuestion (get_user_prompt "| A |" (some "| B |")) ∧
    ¬ occursIn singleQuestion (get_user_prompt "| A |" (some "| B |")) :=
  c3_amended_prompt_contents "| A |" "| B |" (by decide) (by decide) (by decide)

theorem mem_data_joinSep {c : Char} {sep : String} :
    ∀ {l : List String}, c ∈ (joinSep sep l).data → c ∈ sep.data ∨ ∃ s ∈ l, c ∈ s.data := by
  intro l
  induction l with
  | nil => intro h; simp [joinSep] at h
  | cons x xs ih =>
    intro h
    cases xs with
    | nil => exact Or.inr ⟨x, by simp, h⟩
    | cons y ys =>
      rw [show joinSep sep (x :: y :: ys) = x ++ sep ++ joinSep sep (y :: ys) from rfl,
        data_append, data_append] at h
      rcases List.mem_append.mp h with h1 | h2
      · rcases List.mem_append.mp h1 with h3 | h4
        · exact Or.inr ⟨x, List.mem_cons_self _ _, h3⟩
        · exact Or.inl h4
      · rcases ih h2 with h5 | ⟨s, hs, hcs⟩
        · exact Or.inl h5
        · exact Or.inr ⟨s, List.mem_cons_of_mem _ hs, hcs⟩

theorem mem_data_mdRow {c : Char} {cells : List String} (h : c ∈ (mdRow cells).data) :
    c ∈ "| ".data ∨ c ∈ " | ".data ∨ c ∈ " |".data ∨ ∃ s ∈ cells, c ∈ s.data := by
  rw [mdRow, data_append, data_append] at h
  rcases List.mem_append.mp h with h1 | h2
  · rcases List.mem_append.mp h1 with h3 | h4
    · exact Or.inl h3
    · rcases mem_data_joinSep h4 with h5 | h6
      · exact Or.inr (Or.inl h5)
      · exact Or.inr (Or.inr (Or.inr h6))
  · exact Or.inr (Or.inr (Or.inl h2))

theorem digitChar_ne_D (d : Nat) : digitChar d ≠ 'D' := by
  have hlt : d % 10 < 10 := Nat.mod_lt _ (by norm_num)
  unfold digitChar
  set k := d % 10 with hk
  interval_cases k <;> decide

theorem mem_natChars {c : Char} :
    ∀ fuel n, c ∈ natChars fuel n → ∃ d, c = digitChar d := by
  intro fuel
  induction fuel with
  | zero => intro n h; exact absurd h (by simp [natChars])
  | succ f ih =>
    intro n h
    rw [natChars] at h
    split at h
    · simp only [List.mem_singleton] at h
      exact ⟨n, h⟩
    · rcases List.mem_append.mp h with h1 | h2
      · exact ih _ h1
      · simp only [List.mem_singleton] at h2
        exact ⟨n % 10, h2⟩

theorem D_not_mem_renderCell (q : ℚ) : 'D' ∉ (renderCell q).data := by
  intro h
  rw [renderCell, data_append, data_append] at h
  rcases List.mem_append.mp h with h1 | h2
  · rcases List.mem_append.mp h1 with h3 | h4
    · split at h3
      · exact absurd h3 (by decide)
      · exact absurd h3 (by decide)
    · obtain ⟨d, hd⟩ := mem_natChars _ _ h4
      exact digitChar_ne_D d hd.symm
  · split at h2
    · exact absurd h2 (by decide)
    · rw [data_append] at h2
      rcases List.mem_append.mp h2 with h5 | h6
      · exact absurd h5 (by decide)
      · obtain ⟨d, hd⟩ := mem_natChars _ _ h6
        exact digitChar_ne_D d hd.symm

theorem D_not_mem_markdown (df : DataFrame ℚ)
    (hcols : ∀ s ∈ df.columns, 'D' ∉ s.data) (md : String)
    (h : to_markdown renderCell df = .ok md) : 'D' ∉ md.data := by
  intro hD
  rw [to_markdown] at h
  split at h
  · exact Except.noConfusion h
  · injection h with h1
    rw [← h1] at hD
    rcases mem_data_joinSep hD with hsep | ⟨s, hs, hcs⟩
    · exact absurd hsep (by decide)
    · rcases List.mem_cons.mp hs with hs1 | hs2
      · subst hs1
        rcases mem_data_mdRow hcs with h3 | h3 | h3 | ⟨t, ht, hct⟩
        · exact absurd h3 (by decide)
        · exact absurd h3 (by decide)
        · exact absurd h3 (by decide)
        · exact hcols t ht hct
      · rcases List.mem_cons.mp hs2 with hs3 | hs4
        · subst hs3
          rcases mem_data_mdRow hcs with h3 | h3 | h3 | ⟨t, ht, hct⟩
          · exact absurd h3 (by decide)
          · exact absurd h3 (by decide)
          · exact absurd h3 (by decide)
          · obtain ⟨u, hu, rfl⟩ := List.mem_map.mp ht
            exact absurd hct (by decide)
        · obtain ⟨r, hrmem, rfl⟩ := List.mem_map.mp hs4
          rcases mem_data_mdRow hcs with h3 | h3 | h3 | ⟨t, ht, hct⟩
          · exact absurd h3 (by decide)
          · exact absurd h3 (by decide)
          · exact absurd h3 (by decide)
          · obtain ⟨q, hq, rfl⟩ := List.mem_map.mp ht
            exact D_not_mem_renderCell q hct

/-- A single-dataset prompt built from a markdown string without the letter D
contains no "Dataset 2" section. -/
theorem no_dataset2_in_none_prompt (g : String) (hD : 'D' ∉ g.data) :
    ¬ occursIn "Dataset 2" (get_user_prompt g none) := by
  intro h
  have h2 : "Dataset 2".data <:+: (get_user_prompt g none).data := h
  rw [prompt_none_eq g] at h2
  simp only [data_append, List.append_assoc] at h2
  have hnl : '\n' ∉ "Dataset 2".data := by decide
  rcases infix_append_or_left hnl
    ⟨"Here are two sample datasets in Markdown format.\n\n\nDataset 1 (Generated):\n".data,
      by decide⟩ h2 with h3 | h3
  · exact absurd h3 (by decide)
  have hsg : singleTail.data =
      '\n' :: "\n\nPlease provide a brief description of this dataset, mentioning the features and potential target variable. What kind of simple analysis could be performed on this data?".data := by
    decide
  rcases infix_append_or_right hnl
    ⟨"\n\nPlease provide a brief description of this dataset, mentioning the features and potential target variable. What kind of simple analysis could be performed on this data?".data,
      hsg⟩ h3 with h4 | h4
  · exact hD (h4.subset (by decide))
  · exact absurd h4 (by decide)

theorem gen_to_markdown (seed : Nat → Nat) :
    to_markdown renderCell (generate_sample_table seed) = .ok (genMarkdown seed) := rfl

/-- C1: when the remote call raises a request error (any of the kinds the
source groups as one class), `health_check` catches it, reports it on stderr,
and the run still ends normally — no unhandled exception escapes. -/
theorem c1_request_error_caught (env : Env)
    (hc : env.clientConfigured = true) (hp : env.promptsLoaded = true)
    (hwf : ∀ df, env.csvFile = .ok df → df.columns ≠ [])
    (k : ReqErrKind) (m : String) (hapi : env.apiResult = .failure k m) :
    .err ("Error calling OpenAI API: " ++ m) ∈ (health_check env).1 ∧
    (health_check env).2 = .completed := by
  cases hcsv : env.csvFile with
  | notFound =>
    constructor <;>
      simp [health_check, hc, hp, hcsv, csvStage, hapi, apiStage, gen_to_markdown]
  | parseError m2 =>
    constructor <;>
      simp [health_check, hc, hp, hcsv, csvStage, hapi, apiStage, gen_to_markdown]
  | ok df =>
    have hcols : ¬ df.columns = [] := hwf df hcsv
    have hmd : to_markdown id df =
        .ok (joinSep "\n"
          (mdRow df.columns :: mdRow (df.columns.map fun _ => "---") ::
            df.rows.map fun r => mdRow (r.map id))) := by
      rw [to_markdown, if_neg hcols]
    constructor <;>
      simp [health_check, hc, hp, hcsv, csvStage, hmd, hapi, apiStage, gen_to_markdown]

theorem c1_witness :
    .err "Error calling OpenAI API: boom" ∈ (health_check envApiFail).1 ∧
    (health_check envApiFail).2 = .completed := by
  have h := c1_request_error_caught envApiFail rfl rfl
    (fun df hdf => nomatch hdf) .valueError "boom" rfl
  exact h

/-- C5: when the CSV file is missing or unreadable, the run still completes,
a warning or error diagnostic goes to stderr, and the remote call is made with
a single-dataset prompt containing no "Dataset 2" section. -/
theorem c5_missing_csv_recoverable (env : Env)
    (hc : env.clientConfigured = true) (hp : env.promptsLoaded = true)
    (hcsv : env.csvFile = .notFound ∨ ∃ m, env.csvFile = .parseError m) :
    (health_check env).2 = .completed ∧
    (∃ d, .err d ∈ (health_check env).1 ∧
      (d = "Warning: CSV file not found at data/sample_data.csv." ∨
       ∃ m, d = "Error reading CSV file: " ++ m)) ∧
    ∃ u, .apiCall SYSTEM_MESSAGE u ∈ (health_check env).1 ∧
      u = get_user_prompt (genMarkdown env.seed) none ∧
      ¬ occursIn "Dataset 2" u := by
  have hcols : ∀ s ∈ (generate_sample_table env.seed).columns, 'D' ∉ s.data := by
    intro s hs
    fin_cases hs <;> decide
  have hD : 'D' ∉ (genMarkdown env.seed).data :=
    D_not_mem_markdown (generate_sample_table env.seed) hcols _ (gen_to_markdown env.seed)
  have hnoDS2 := no_dataset2_in_none_prompt (genMarkdown env.seed) hD
  rcases hcsv with h | ⟨m, h⟩
  · refine ⟨?_,
      ⟨"Warning: CSV file not found at " ++ CSV_FILE_PATH ++ ".", ?_, Or.inl (by decide)⟩,
      ⟨get_user_prompt (genMarkdown env.seed) none, ?_, rfl, hnoDS2⟩⟩
    · simp [health_check, hc, hp, h, csvStage, gen_to_markdown]
    · simp [health_check, hc, hp, h, csvStage, gen_to_markdown]
    · simp [health_check, hc, hp, h, csvStage, gen_to_markdown]
  · refine ⟨?_,
      ⟨"Error reading CSV file: " ++ m, ?_, Or.inr ⟨m, rfl⟩⟩,
      ⟨get_user_prompt (genMarkdown env.seed) none, ?_, rfl, hnoDS2⟩⟩
    · simp [health_check, hc, hp, h, csvStage, gen_to_markdown]
    · simp [health_check, hc, hp, h, csvStage, gen_to_markdown]
    · simp [health_check, hc, hp, h, csvStage, gen_to_markdown]

theorem c5_witness :
    (health_check envCsvMissing).2 = .completed ∧
    (∃ d, .err d ∈ (health_check envCsvMissing).1 ∧
      (d = "Warning: CSV file not found at data/sample_data.csv." ∨
       ∃ m, d = "Error reading CSV file: " ++ m)) ∧
    ∃ u, .apiCall SYSTEM_MESSAGE u ∈ (health_check envCsvMissing).1 ∧
      u = get_user_prompt (genMarkdown envCsvMissing.seed) none ∧
      ¬ occursIn "Dataset 2" u :=
  c5_missing_csv_recoverable envCsvMissing rfl rfl (Or.inl rfl)

end HealthCheckSpec
